import Mathlib

/-!
Verification development for the koko-drama shuffle-merge pipeline.

The definitions below are a shallow embedding of `src/shuffle_merge.py`
(and, where cited, `src/gen_video.py`).  Pure Python functions become Lean
functions; filesystem facts (file existence, probe results, directory
listings) and the external transcoding engine's exit codes are passed in as
explicit parameters.  Durations and floating-point configuration constants
are embedded as rationals.
-/

namespace KokoMerge

/-- Decimal digits of the fractional part of a nonnegative rational below 1,
with fuel bounding the number of digits produced. -/
def fracDigits (q : ℚ) : Nat → String
  | 0 => ""
  | Nat.succ fuel =>
    if q = 0 then ""
    else
      let q10 := q * 10
      let d : ℤ := q10.floor
      toString d ++ fracDigits (q10 - (d : ℚ)) fuel

/-- Decimal rendering of a rational, modelling Python's formatting of a
float (`str(x)` / f-string interpolation).  Exact for every terminating
decimal used by the configuration constants of the program; a
non-terminating expansion is truncated after 20 digits. -/
def pyFloatStr (q : ℚ) : String :=
  let sign := if q < 0 then "-" else ""
  let a := |q|
  let ip : ℤ := a.floor
  let fr := a - (ip : ℚ)
  sign ++ toString ip ++ "." ++ (if fr = 0 then "0" else fracDigits fr 20)

/-- Python `f"{n:02d}"`: zero-pad a natural number to two digits. -/
def fmt2 (n : Nat) : String :=
  if n < 10 then "0" ++ toString n else toString n

/-! ## Configuration constants (module header of shuffle_merge.py) -/

def PICK_FOLDERS_PER_RUN : Nat := 6
def MAX_VIDEOS_PER_FOLDER : Nat := 3
def BASE_SEED : Int := 42
def TARGET_W : Nat := 1080
def TARGET_H : Nat := 1920
def SCALE_MODE : String := "fit"
def FORCE_FPS : ℚ := 30
def BANNER_START_DELAY : ℚ := 0
def MAKE_BLACK_TRANSPARENT : Bool := true
def BLACK_KEY_SIMILARITY : ℚ := 2/25
def BLACK_KEY_BLEND : ℚ := 0
def OVERLAY_TINT_STRENGTH : ℚ := 17/20

def OVERLAY_TINT_PALETTE : List String :=
  ["#00C2FF", "#FF4D6D", "#22C55E", "#F59E0B", "#A855F7", "#14B8A6", "#EF4444"]

def LOOKS_7 : List (String × String) :=
  [("clean", "eq=contrast=1.15:saturation=1.2:brightness=0.03"),
   ("warm", "colorbalance=rs=0.05:gs=0.03:bs=-0.06"),
   ("cool", "colorbalance=rs=-0.05:gs=-0.02:bs=0.06"),
   ("soft", "gblur=sigma=1.5"),
   ("crisp", "unsharp=5:5:1.5:5:5:0.0"),
   ("matte", "eq=contrast=0.9:saturation=0.85:gamma=1.1"),
   ("grain", "noise=alls=8:allf=t")]

structure SpeedZoomPreset where
  name : String
  zoom : ℚ
  speed : ℚ
deriving DecidableEq, Repr

def SPEED_ZOOM_PRESETS : List SpeedZoomPreset :=
  [⟨"A", 27/25, 103/100⟩, ⟨"B", 11/10, 21/20⟩, ⟨"C", 53/50, 107/100⟩,
   ⟨"D", 28/25, 51/50⟩, ⟨"E", 109/100, 53/50⟩, ⟨"F", 107/100, 26/25⟩, ⟨"G", 111/100, 103/100⟩]

/-! ## Deterministic parameter selector -/

/-- Embedding of `cycle_look`: pick the cycle's look from `LOOKS_7` at index
`(cycle - 1) % len(LOOKS_7)`. -/
def cycle_look (cycle : Nat) : String × String :=
  LOOKS_7.get ⟨(cycle - 1) % LOOKS_7.length, Nat.mod_lt _ (by decide)⟩

/-- Embedding of `pick_palette_color_hex`: `None` on an empty palette,
otherwise the entry at index `(cycle - 1) % len(palette)`. -/
def pick_palette_color_hex (palette : List String) (cycle : Nat) : Option String :=
  if palette.isEmpty then none
  else palette.get? ((cycle - 1) % palette.length)

/-- Embedding of `get_zoom_speed_auto`: the preset at index
`(cycle - 1) % len(SPEED_ZOOM_PRESETS)`, returned as (zoom, speed, name). -/
def get_zoom_speed_auto (cycle : Nat) : ℚ × ℚ × String :=
  let p := SPEED_ZOOM_PRESETS.get
    ⟨(cycle - 1) % SPEED_ZOOM_PRESETS.length, Nat.mod_lt _ (by decide)⟩
  (p.zoom, p.speed, p.name)

/-- Embedding of `pick_intro_audio`.  `dirAudios = some l` models an existing
intro-voices directory whose audio listing is `l`; `none` models an absent
directory.  The in-range list indexing of the source is rendered with
`get?`/`getD` (the index `(cycle-1) % length` is always in range). -/
def pick_intro_audio (intro_fallback : String) (dirAudios : Option (List String))
    (cycle : Nat) : String :=
  match dirAudios with
  | some audios =>
    if audios.isEmpty then intro_fallback
    else (audios.get? ((cycle - 1) % audios.length)).getD intro_fallback
  | none => intro_fallback

/-- Hexadecimal digit value of a character, as accepted by Python
`int(s, 16)` for a single digit. -/
def hexDigit (ch : Char) : Option Nat :=
  if ch.isDigit then some (ch.toNat - 48)
  else if 'a' ≤ ch ∧ ch ≤ 'f' then some (ch.toNat - 87)
  else if 'A' ≤ ch ∧ ch ≤ 'F' then some (ch.toNat - 55)
  else none

/-- Embedding of `parse_hex_color`: strip whitespace, drop leading `#`
characters, require exactly six hex digits, and return each channel scaled
to `[0, 1]` by division by 255. -/
def parse_hex_color (s : Option String) : Option (ℚ × ℚ × ℚ) :=
  match s with
  | none => none
  | some str =>
    if str = "" then none
    else
      let t := (str.trim.toList).dropWhile (fun ch => ch = '#')
      match t with
      | [a, b, c, d, e, f] =>
        match hexDigit a, hexDigit b, hexDigit c, hexDigit d, hexDigit e, hexDigit f with
        | some a1, some a2, some b1, some b2, some c1, some c2 =>
          some (((a1 * 16 + a2 : ℚ)) / 255, ((b1 * 16 + b2 : ℚ)) / 255,
                ((c1 * 16 + c2 : ℚ)) / 255)
        | _, _, _, _, _, _ => none
      | _ => none

/-! ## Cycle state store -/

/-- JSON values as produced by Python's `json.loads`.  Python `bool` is a
subclass of `int`, so `jbool` is kept distinct to model `isinstance(x, int)`
returning `True` for booleans. -/
inductive JVal where
  | jnull : JVal
  | jbool : Bool → JVal
  | jint : Int → JVal
  | jfloat : ℚ → JVal
  | jstr : String → JVal
  | jarr : List JVal → JVal
  | jobj : List (String × JVal) → JVal

mutual

/-- Python `repr` of a JSON-loaded value (used through `pyStr` for non-string
list elements; its exact text is irrelevant to every claim, it only needs to
be some total function). -/
def pyRepr : JVal → String
  | JVal.jnull => "None"
  | JVal.jbool true => "True"
  | JVal.jbool false => "False"
  | JVal.jint n => toString n
  | JVal.jfloat q => pyFloatStr q
  | JVal.jstr s => "\x27" ++ s ++ "\x27"
  | JVal.jarr xs => "[" ++ pyReprList xs ++ "]"
  | JVal.jobj fs => "\x7b" ++ pyReprFields fs ++ "\x7d"

def pyReprList : List JVal → String
  | [] => ""
  | [x] => pyRepr x
  | x :: xs => pyRepr x ++ ", " ++ pyReprList xs

def pyReprFields : List (String × JVal) → String
  | [] => ""
  | [(k, v)] => "\x27" ++ k ++ "\x27: " ++ pyRepr v
  | (k, v) :: xs => "\x27" ++ k ++ "\x27: " ++ pyRepr v ++ ", " ++ pyReprFields xs

end

/-- Python `str(x)` for a JSON-loaded value. -/
def pyStr : JVal → String
  | JVal.jstr s => s
  | v => pyRepr v

/-- Python `isinstance(x, int)` composed with conversion: booleans count as
integers (`True == 1`, `False == 0`); everything else is rejected. -/
def pyIntVal : JVal → Option Int
  | JVal.jint n => some n
  | JVal.jbool b => some (if b then 1 else 0)
  | _ => none

/-- Python `isinstance(x, list)`. -/
def jListVal : JVal → Option (List JVal)
  | JVal.jarr xs => some xs
  | _ => none

/-- Python `dict.get` on the field list of a JSON object (`json.loads` keeps
the last occurrence of a duplicated key). -/
def lookupField (fields : List (String × JVal)) (key : String) : Option JVal :=
  (fields.reverse.find? (fun p => p.1 == key)).map (fun p => p.2)

/-- Embedding of `load_state`.  The argument models the readable state of
the file: `none` = file absent; `some none` = file exists but reading or
`json.loads` raises (caught by the bare `except`); `some (some j)` = file
parses to the JSON value `j`.  Attribute access `data.get` on a non-object
raises and is caught, yielding the default. -/
def load_state (contents : Option (Option JVal)) : Int × List String :=
  match contents with
  | none => (1, [])
  | some none => (1, [])
  | some (some (JVal.jobj fields)) =>
    let cycle := (lookupField fields "cycle").getD (JVal.jint 1)
    let done := (lookupField fields "done").getD (JVal.jarr [])
    match pyIntVal cycle, jListVal done with
    | some n, some xs => (max 1 n, xs.map pyStr)
    | _, _ => (1, [])
  | some (some _) => (1, [])

/-- Malformed persisted state, in the words of the claim: file absent,
unparseable, top level not an object, non-integer `cycle`, or non-list
`done`. -/
def malformed_state_input (contents : Option (Option JVal)) : Bool :=
  match contents with
  | none => true
  | some none => true
  | some (some (JVal.jobj fields)) =>
    let cycle := (lookupField fields "cycle").getD (JVal.jint 1)
    let done := (lookupField fields "done").getD (JVal.jarr [])
    (pyIntVal cycle).isNone || (jListVal done).isNone
  | some (some _) => true

/-! ## Run orchestrator: state phases (from `main`) -/

/-- Load-time state normalisation in `main` (lines 471-485): restrict the
persisted `done` names to the currently eligible folder names; if that
restriction already covers every eligible folder, clear `done` and advance
the cycle. -/
def load_phase (eligibleNames : Finset String) (cycle : Nat) (doneList : List String) :
    Nat × Finset String :=
  if doneList.toFinset ∩ eligibleNames = eligibleNames then (cycle + 1, (∅ : Finset String))
  else (cycle, doneList.toFinset ∩ eligibleNames)

/-- Folders still to process this cycle (`remaining` in `main`). -/
def remaining_folders (eligibleList : List String) (done : Finset String) : List String :=
  eligibleList.filter (fun n => !(decide (n ∈ done)))

/-- The folders picked for this run: the first
`min PICK_FOLDERS_PER_RUN (length remaining)` remaining folders. -/
def picked_folders (eligibleList : List String) (done : Finset String) : List String :=
  let rem := remaining_folders eligibleList done
  rem.take (min PICK_FOLDERS_PER_RUN rem.length)

/-- End-of-run state update in `main` (lines 510-516): add the names of the
successfully processed folders to `done`; if `done` now equals the eligible
set, persist cycle+1 with an empty `done`, otherwise persist the cycle and
the sorted `done` list. -/
def end_phase (eligibleNames : Finset String) (cycle : Nat) (done : Finset String)
    (processed : List String) : Nat × List String :=
  if done ∪ processed.toFinset = eligibleNames then (cycle + 1, [])
  else (cycle, (done ∪ processed.toFinset).sort (· ≤ ·))

/-! ## Engine invocation and per-folder processing (error propagation) -/

/-- Embedding of `run`: a non-zero exit code of the external engine raises
`RuntimeError`, modelled as `Except.error`. -/
def run_engine (returncode : Int) : Except String Unit :=
  if returncode ≠ 0 then Except.error "Command failed" else Except.ok ()

/-- Successive external-engine invocations of one folder (intro render, the
two body renders per clip, optional CTA, outro, the two concats), each given
by its exit code; the first failing invocation raises and aborts the rest. -/
def run_all (exits : List Int) : Except String Unit :=
  match exits with
  | [] => Except.ok ()
  | e :: rest =>
    match run_engine e with
    | Except.error msg => Except.error msg
    | Except.ok _ => run_all rest

/-- Control flow of `process_one_folder` with respect to failure: an empty
folder returns `False` (skip); otherwise every engine invocation is executed
in order with no surrounding `try`/`except`, so a raised `RuntimeError`
propagates to the caller; full success returns `True`. -/
def process_one_folder_result (vids : List String) (exits : List Int) :
    Except String Bool :=
  if vids.isEmpty then Except.ok false
  else
    match run_all exits with
    | Except.error msg => Except.error msg
    | Except.ok _ => Except.ok true

/-- The per-folder loop of `main` (lines 502-508): each picked folder is a
triple (name, clip list, engine exit codes).  Successfully processed names
are collected in order; an uncaught exception anywhere aborts the loop. -/
def main_loop : List (String × List String × List Int) → Except String (List String)
  | [] => Except.ok []
  | (name, vids, exits) :: rest =>
    match process_one_folder_result vids exits with
    | Except.error msg => Except.error msg
    | Except.ok ok =>
      match main_loop rest with
      | Except.error msg => Except.error msg
      | Except.ok tail => Except.ok (if ok then name :: tail else tail)

/-- The tail of `main`: run the folder loop, then update and persist state.
If the loop raises, the exception propagates out of `main` and the state is
never saved. -/
def main_tail (eligibleNames : Finset String) (cycle : Nat) (done : Finset String)
    (folders : List (String × List String × List Int)) :
    Except String (Nat × List String) :=
  match main_loop folders with
  | Except.error msg => Except.error msg
  | Except.ok processed => Except.ok (end_phase eligibleNames cycle done processed)

/-! ## Clip shuffling -/

/-- Exchange the elements at positions `i` and `j` of a list (out-of-range
positions leave the list unchanged; in this development it is only applied
in range). -/
def listSwap {α : Type} (xs : List α) (i j : Nat) : List α :=
  match xs.get? i, xs.get? j with
  | some a, some b => (xs.set i b).set j a
  | _, _ => xs

/-- Fisher–Yates shuffle as performed by CPython's `random.shuffle` (which
is outside src/): for `i` from `len-1` down to `1`, draw `j` below `i + 1`
from the generator and swap positions `i` and `j`.  The generator is
modelled by the list of its successive draws. -/
def fisherYates {α : Type} (draws : List Nat) (xs : List α) : List α :=
  ((((List.range xs.length).drop 1).reverse.zip draws).foldl
    (fun acc p => listSwap acc p.1 (p.2 % (p.1 + 1))) xs)

/-- Clip shuffling in `process_one_folder` (line 387): `random.shuffle(vids)`
draws from the process-global generator, whose state `globalDraws` is never
seeded by the program (`random.seed` is never called); the `seed` parameter
received from `main` (`BASE_SEED`) is never used. -/
def shuffle_merge_shuffle (seed : Int) (globalDraws : List Nat)
    (vids : List String) : List String :=
  fisherYates globalDraws vids

/-- Clip shuffling in `gen_video.py` `main` (lines 123-124): a dedicated
`random.Random(args.seed)` instance is used, so the draw stream is a
function of the seed alone. -/
def gen_video_shuffle (drawsOfSeed : Option Int → List Nat) (seed : Option Int)
    (vids : List String) : List String :=
  fisherYates (drawsOfSeed seed) vids

/-! ## Filter-graph construction -/

/-- Embedding of `build_base_chain`: geometry conform, timestamp reset,
optional speed warp, frame-rate conform, optional look filter, optional
digital zoom. -/
def build_base_chain (target_w target_h : Nat) (fps : ℚ) (scale_mode : String)
    (look_filter : Option String) (zoom speed : ℚ) : String :=
  let chain :=
    if scale_mode = "fill" then
      "scale=" ++ toString target_w ++ ":" ++ toString target_h ++
        ":force_original_aspect_ratio=increase,crop=" ++ toString target_w ++
        ":" ++ toString target_h ++ ",setsar=1"
    else
      "scale=" ++ toString target_w ++ ":" ++ toString target_h ++
        ":force_original_aspect_ratio=decrease,pad=" ++ toString target_w ++
        ":" ++ toString target_h ++ ":(ow-iw)/2:(oh-ih)/2,setsar=1"
  let chain := chain ++ ",setpts=PTS-STARTPTS"
  let chain :=
    if |speed - 1| > 1/1000000 then chain ++ ",setpts=PTS/" ++ pyFloatStr speed
    else chain
  let chain := chain ++ ",fps=" ++ pyFloatStr fps
  let chain :=
    match look_filter with
    | some lf => chain ++ "," ++ lf
    | none => chain
  if zoom ≠ 0 ∧ zoom > 10001/10000 then
    chain ++ ",scale=iw*" ++ pyFloatStr zoom ++ ":ih*" ++ pyFloatStr zoom ++
      ",crop=" ++ toString target_w ++ ":" ++ toString target_h
  else chain

/-- Embedding of `overlay_tint_chains`: scale the overlay, key out black,
then tint fully (strength ≥ 0.999) or blend tinted and untinted versions. -/
def overlay_tint_chains (input_label out_label : String) (w h : Nat)
    (tint_rgb : Option (ℚ × ℚ × ℚ)) (strength : ℚ) (prfx : String) : List String :=
  let ovraw := prfx ++ "ovraw"
  let base_chain :=
    "[" ++ input_label ++ "]scale=" ++ toString w ++ ":" ++ toString h ++
      ":force_original_aspect_ratio=disable,format=rgba"
  let base_chain :=
    if MAKE_BLACK_TRANSPARENT then
      base_chain ++ ",colorkey=0x000000:" ++ pyFloatStr BLACK_KEY_SIMILARITY ++
        ":" ++ pyFloatStr BLACK_KEY_BLEND
    else base_chain
  let first := base_chain ++ "[" ++ ovraw ++ "]"
  match tint_rgb with
  | none => [first, "[" ++ ovraw ++ "]null[" ++ out_label ++ "]"]
  | some (rr, gg, bb) =>
    let s := max 0 (min 1 strength)
    let mixer := "colorchannelmixer=rr=" ++ pyFloatStr rr ++ ":gg=" ++ pyFloatStr gg ++
      ":bb=" ++ pyFloatStr bb ++ ":aa=1"
    if s ≥ 999/1000 then
      [first, "[" ++ ovraw ++ "]" ++ mixer ++ "[" ++ out_label ++ "]"]
    else
      let ova := prfx ++ "ova"
      let ovb := prfx ++ "ovb"
      let ovb2 := prfx ++ "ovb2"
      [first,
       "[" ++ ovraw ++ "]split=2[" ++ ova ++ "][" ++ ovb ++ "]",
       "[" ++ ovb ++ "]" ++ mixer ++ "[" ++ ovb2 ++ "]",
       "[" ++ ova ++ "][" ++ ovb2 ++ "]blend=all_mode=normal:all_opacity=" ++
         pyFloatStr s ++ "[" ++ out_label ++ "]"]

/-- The encoder tail shared by every render command of shuffle_merge.py
(`-shortest` plus the fixed re-encode settings). -/
def render_tail : List String :=
  ["-shortest", "-c:v", "libx264", "-preset", "veryfast", "-crf", "18",
   "-bf", "0", "-g", "30", "-c:a", "aac", "-ar", "48000", "-ac", "2",
   "-movflags", "+faststart"]

/-- Embedding of `transcode_with_optional_overlay` as the external-engine
command it constructs.  `need_audio` is the probed `has_audio_stream`
result; `fsExists` models `Path(...).exists()`. -/
def transcode_cmd (in_video out_video : String) (target_w target_h : Nat)
    (fps : ℚ) (scale_mode : String) (look_filter : Option String)
    (folder_overlay_png : Option String) (apply_folder_overlay : Bool)
    (overlay_tint_rgb : Option (ℚ × ℚ × ℚ)) (overlay_tint_strength : ℚ)
    (banner_png : Option String) (banner_delay : ℚ) (zoom speed : ℚ)
    (need_audio : Bool) (fsExists : String → Bool) : List String :=
  let base := build_base_chain target_w target_h fps scale_mode look_filter zoom speed
  let cmd := ["ffmpeg", "-y", "-i", in_video]
  let cmd :=
    if !need_audio then
      cmd ++ ["-f", "lavfi", "-t", "0.1", "-i",
              "anullsrc=channel_layout=stereo:sample_rate=48000"]
    else cmd
  let fc_chains := ["[0:v]" ++ base ++ ",format=rgba[v0]"]
  let next_idx := if !need_audio then 2 else 1
  let cur := "[v0]"
  let (cmd, fc_chains, cur, next_idx) :=
    match folder_overlay_png with
    | some p =>
      if apply_folder_overlay && fsExists p then
        let tint := overlay_tint_chains (toString next_idx ++ ":v") "ov_folder"
          target_w target_h overlay_tint_rgb overlay_tint_strength "t1_"
        let nv := "[v" ++ toString next_idx ++ "]"
        (cmd ++ ["-loop", "1", "-i", p],
         fc_chains ++ tint ++
           [cur ++ "[ov_folder]overlay=0:0:format=auto,format=rgba" ++ nv],
         nv, next_idx + 1)
      else (cmd, fc_chains, cur, next_idx)
    | none => (cmd, fc_chains, cur, next_idx)
  let (cmd, fc_chains, cur) :=
    match banner_png with
    | some b =>
      if fsExists b then
        let banner_chain := "[" ++ toString next_idx ++ ":v]scale=" ++
          toString target_w ++ ":" ++ toString target_h ++ ",format=rgba"
        let banner_chain :=
          if MAKE_BLACK_TRANSPARENT then
            banner_chain ++ ",colorkey=0x000000:" ++ pyFloatStr BLACK_KEY_SIMILARITY ++
              ":" ++ pyFloatStr BLACK_KEY_BLEND
          else banner_chain
        (cmd ++ ["-loop", "1", "-i", b],
         fc_chains ++ [banner_chain ++ "[ov_banner]",
           cur ++ "[ov_banner]overlay=0:0:format=auto:enable=\x27gte(t," ++
             pyFloatStr banner_delay ++ ")\x27,format=yuv420p[v_final_banner]"],
         "[v_final_banner]")
      else
        (cmd, fc_chains ++ [cur ++ "setsar=1,format=yuv420p[v_final_out]"],
         "[v_final_out]")
    | none =>
      (cmd, fc_chains ++ [cur ++ "setsar=1,format=yuv420p[v_final_out]"],
       "[v_final_out]")
  let fc_chains :=
    if need_audio then
      if |speed - 1| > 1/1000000 then
        fc_chains ++ ["[0:a]atempo=" ++ pyFloatStr speed ++
          ",aformat=sample_rates=48000:channel_layouts=stereo[a_out]"]
      else
        fc_chains ++ ["[0:a]aformat=sample_rates=48000:channel_layouts=stereo[a_out]"]
    else
      fc_chains ++ ["[1:a]aformat=sample_rates=48000:channel_layouts=stereo[a_out]"]
  cmd ++ ["-filter_complex", String.intercalate ";" fc_chains,
          "-map", cur, "-map", "[a_out]"] ++ render_tail ++ [out_video]

/-- Embedding of the duration choice at the top of `make_intro_from_video`:
the probed narration duration (0.0 when the probe finds no duration), with a
fixed 3-second fallback when it is ≤ 0.05 s. -/
def get_intro_duration (probed : ℚ) : ℚ :=
  if probed ≤ 1/20 then 3 else probed

/-- Embedding of `make_intro_from_video` as the external-engine command it
constructs: skip the first 0.1 s of the first clip, read it for the chosen
intro duration, replace its audio with the narration track (tempo-warped
when speed ≠ 1), and encode with `-shortest`. -/
def make_intro_cmd (first_video intro_audio out_video : String)
    (probedNarrDur : ℚ) (target_w target_h : Nat) (fps : ℚ) (scale_mode : String)
    (look_filter : Option String) (folder_overlay_png : Option String)
    (overlay_tint_rgb : Option (ℚ × ℚ × ℚ)) (overlay_tint_strength : ℚ)
    (zoom speed : ℚ) (fsExists : String → Bool) : List String :=
  let intro_duration := get_intro_duration probedNarrDur
  let base := build_base_chain target_w target_h fps scale_mode look_filter zoom speed
  let cmd := ["ffmpeg", "-y", "-ss", "0.1", "-t", pyFloatStr intro_duration,
              "-i", first_video, "-i", intro_audio]
  let fc_chains := ["[0:v]" ++ base ++ ",format=rgba[v0]"]
  let cur := "[v0]"
  let (cmd, fc_chains, cur) :=
    match folder_overlay_png with
    | some p =>
      if fsExists p then
        let tint := overlay_tint_chains "2:v" "ov_folder" target_w target_h
          overlay_tint_rgb overlay_tint_strength "t2_"
        (cmd ++ ["-loop", "1", "-i", p],
         fc_chains ++ tint ++
           [cur ++ "[ov_folder]overlay=0:0:format=auto,format=rgba[v2]"],
         "[v2]")
      else (cmd, fc_chains, cur)
    | none => (cmd, fc_chains, cur)
  let fc_chains := fc_chains ++ [cur ++ "setsar=1,format=yuv420p[v_final_out]"]
  let audio_chain := "[1:a]" ++
    (if |speed - 1| > 1/1000000 then "atempo=" ++ pyFloatStr speed ++ "," else "") ++
    "aformat=sample_rates=48000:channel_layouts=stereo[a_out]"
  let fc_chains := fc_chains ++ [audio_chain]
  cmd ++ ["-filter_complex", String.intercalate ";" fc_chains,
          "-map", "[v_final_out]", "-map", "[a_out]"] ++ render_tail ++ [out_video]

/-- Modelled from the spec: the rendered duration of the intro segment.  The
external transcoding engine is outside src/, so its duration behaviour for
the command built by `make_intro_cmd` is taken from the spec: §4.4 trims a
short leading slice (0.1 s) and clips the read video to the chosen intro
duration, §4.3 step 3 rescales video timestamps and audio tempo by the same
speed multiplier, and encoding stops at the end of the shorter mapped
stream (`-shortest`). -/
def intro_rendered_duration (clipLen narrDur speed : ℚ) : ℚ :=
  let t := get_intro_duration narrDur
  let videoRead := min t (max (clipLen - 1/10) 0)
  min (videoRead / speed) (narrDur / speed)

/-! ## Concatenation (Sequence Assembler) -/

/-- The fixed mapping/encoding arguments of `concat_segments`: one full
re-encode, no stream-copy. -/
def concat_reencode_tail : List String :=
  ["-map", "[v]", "-map", "[a]",
   "-c:v", "libx264", "-preset", "veryfast", "-crf", "18", "-bf", "0", "-g", "30",
   "-c:a", "aac", "-ar", "48000", "-ac", "2",
   "-movflags", "+faststart"]

/-- The `concat` filter of `concat_segments`: the pin pairs of each input in
ascending input order, then the n-way concat node. -/
def concat_filter (n : Nat) : String :=
  String.join ((List.range n).map
    (fun i => "[" ++ toString i ++ ":v][" ++ toString i ++ ":a]")) ++
    "concat=n=" ++ toString n ++ ":v=1:a=1[v][a]"

/-- Embedding of `concat_segments` as the single external-engine command it
constructs. -/
def concat_segments_cmd (file_list : List String) (output_path : String) :
    List String :=
  (file_list.foldl (fun acc p => acc ++ ["-i", p]) ["ffmpeg", "-y"]) ++
    ["-filter_complex", concat_filter file_list.length] ++
    concat_reencode_tail ++ [output_path]

/-! ## Per-folder segment assembly (from `process_one_folder`) -/

def intro_tk_name : String := "norm_00_intro_tk.mp4"

def body_tk_name (idx : Nat) : String := "norm_" ++ fmt2 idx ++ "_in_tk.mp4"

def body_pd_name (idx : Nat) : String := "norm_" ++ fmt2 idx ++ "_in_pd.mp4"

def cta_name : String := "norm_99_pre_outro.mp4"

def outro_seg_name (nvids : Nat) : String := "norm_" ++ fmt2 (nvids + 1) ++ "_outro.mp4"

/-- The body segments of the social (TikTok) rendition, in shuffled clip
order. -/
def bodies_tk (vids : List String) : List String :=
  (List.range vids.length).map (fun i => body_tk_name (i + 1))

/-- The body segments of the production rendition, in shuffled clip order. -/
def bodies_pd (vids : List String) : List String :=
  (List.range vids.length).map (fun i => body_pd_name (i + 1))

/-- The optional call-to-action segment: present only when there is at least
one body segment, the CTA audio asset exists, and last-frame extraction
succeeded. -/
def cta_seg (bodiesNonempty ctaAudioExists lastFrameOk : Bool) : List String :=
  if bodiesNonempty && ctaAudioExists && lastFrameOk then [cta_name] else []

structure FolderPlan where
  listTiktok : List String
  listProd : List String
deriving DecidableEq, Repr

/-- The two concat lists assembled by `process_one_folder` (lines 436 and
441): the social rendition is intro + bodies + optional CTA + outro, the
production rendition is bodies + optional CTA + outro.  `none` models the
early `return False` on a folder with no videos. -/
def process_one_folder_plan (vids : List String) (ctaAudioExists lastFrameOk : Bool) :
    Option FolderPlan :=
  if vids.isEmpty then none
  else
    let bTk := bodies_tk vids
    let bPd := bodies_pd vids
    let cta := cta_seg (!bTk.isEmpty) ctaAudioExists lastFrameOk
    some { listTiktok := [intro_tk_name] ++ bTk ++ cta ++ [outro_seg_name vids.length],
           listProd := bPd ++ cta ++ [outro_seg_name vids.length] }

/-- The banner passed to the social-rendition body transcode of clip `idx`
(`process_one_folder` line 411): disabled for the first shuffled clip. -/
def current_banner_tk (idx : Nat) (banner_png : Option String) : Option String :=
  if idx = 1 then none else banner_png

/-- Whether the pattern occurs at the head of the text. -/
def matchesAt : List Char → List Char → Bool
  | [], _ => true
  | _ :: _, [] => false
  | p :: ps, t :: ts => p == t && matchesAt ps ts

/-- Whether the pattern occurs anywhere in the text. -/
def hasSubstring (p : List Char) : List Char → Bool
  | [] => matchesAt p []
  | t :: ts => matchesAt p (t :: ts) || hasSubstring p ts

/-- Whether a constructed command mentions the banner overlay pin. -/
def mentions_banner (cmd : List String) : Bool :=
  cmd.any (fun s => hasSubstring "ov_banner".toList s.toList)

/-- The body transcode command for clip `idx` of the social rendition, with
the run parameters of cycle 1 (look, tint, preset) and every referenced
asset present, an audio-bearing clip, and the banner argument chosen by
`current_banner_tk`. -/
def body_cmd_tk (idx : Nat) : List String :=
  transcode_cmd "clip.mp4" "seg.mp4" TARGET_W TARGET_H FORCE_FPS SCALE_MODE
    (some (cycle_look 1).2) (some "overlay.png") true
    (parse_hex_color (pick_palette_color_hex OVERLAY_TINT_PALETTE 1))
    OVERLAY_TINT_STRENGTH (current_banner_tk idx (some "banner.png"))
    BANNER_START_DELAY (get_zoom_speed_auto 1).1 (get_zoom_speed_auto 1).2.1
    true (fun _ => true)

/-- The body transcode command for a source clip with no audio stream, with
the run parameters of cycle 1 and no overlay or banner asset present. -/
def c4_no_audio_cmd : List String :=
  transcode_cmd "noaudio_clip.mp4" "seg.mp4" TARGET_W TARGET_H FORCE_FPS SCALE_MODE
    (some (cycle_look 1).2) none true none OVERLAY_TINT_STRENGTH none
    BANNER_START_DELAY (get_zoom_speed_auto 1).1 (get_zoom_speed_auto 1).2.1
    false (fun _ => false)

/-! ## Helper lemmas -/

theorem mod_period (c k L : Nat) (h : 1 ≤ c) : (c + k * L - 1) % L = (c - 1) % L := by
  have h2 : c + k * L - 1 = (c - 1) + k * L := by omega
  rw [h2, Nat.add_mul_mod_self_right]

theorem get_congr {α : Type} (l : List α) (i j : Nat) (hi : i < l.length)
    (hj : j < l.length) (hij : i = j) : l.get ⟨i, hi⟩ = l.get ⟨j, hj⟩ := by
  subst hij
  rfl

theorem listSwap_length {α : Type} (xs : List α) (i j : Nat) :
    (listSwap xs i j).length = xs.length := by
  unfold listSwap
  rcases h1 : xs.get? i with _ | a <;> rcases h2 : xs.get? j with _ | b <;>
    simp [List.length_set]

theorem swap_foldl_length {α : Type} (l : List (Nat × Nat)) (xs : List α) :
    (l.foldl (fun acc p => listSwap acc p.1 (p.2 % (p.1 + 1))) xs).length
      = xs.length := by
  induction l generalizing xs with
  | nil => rfl
  | cons p l ih => rw [List.foldl_cons, ih, listSwap_length]

theorem fisherYates_length {α : Type} (draws : List Nat) (xs : List α) :
    (fisherYates draws xs).length = xs.length := by
  unfold fisherYates
  exact swap_foldl_length _ _

theorem foldl_inputs (files : List String) (init : List String) :
    files.foldl (fun acc p => acc ++ ["-i", p]) init
      = init ++ files.flatMap (fun p => ["-i", p]) := by
  induction files generalizing init with
  | nil => simp
  | cons f fs ih => simp [List.foldl_cons, ih]

/-! ## Claim theorems -/

/-- C3: for every cycle `c ≥ 1`, each selector picks the palette entry at
index `(c - 1) mod L`, and the selection is periodic: `selector (c + k·L) =
selector c` for every nonnegative `k` (looks, speed/zoom presets, tint
palette, intro narration tracks); identical cycle and palettes always yield
identical selections since the selectors are pure functions. -/
theorem C3_selector_rotation (c : Nat) (h : 1 ≤ c) (k : Nat) :
    cycle_look c = LOOKS_7.get ⟨(c - 1) % LOOKS_7.length, Nat.mod_lt _ (by decide)⟩
    ∧ cycle_look (c + k * LOOKS_7.length) = cycle_look c
    ∧ get_zoom_speed_auto (c + k * SPEED_ZOOM_PRESETS.length) = get_zoom_speed_auto c
    ∧ (∀ palette : List String,
        pick_palette_color_hex palette (c + k * palette.length)
          = pick_palette_color_hex palette c)
    ∧ (∀ fb audios, pick_intro_audio fb (some audios) (c + k * audios.length)
          = pick_intro_audio fb (some audios) c) := by
  refine ⟨rfl, ?_, ?_, ?_, ?_⟩
  · unfold cycle_look
    exact get_congr _ _ _ _ _ (mod_period c k _ h)
  · unfold get_zoom_speed_auto
    rw [get_congr _ _ _ _ _ (mod_period c k _ h)]
  · intro palette
    unfold pick_palette_color_hex
    rw [mod_period c k _ h]
  · intro fb audios
    simp only [pick_intro_audio]
    rw [mod_period c k _ h]

/-- Witness for C3 at cycle 3 with two full wraps. -/
theorem C3_selector_rotation_witness :
    cycle_look (3 + 2 * LOOKS_7.length) = cycle_look 3
    ∧ get_zoom_speed_auto (3 + 2 * SPEED_ZOOM_PRESETS.length) = get_zoom_speed_auto 3 :=
  ⟨(C3_selector_rotation 3 (by decide) 2).2.1,
   (C3_selector_rotation 3 (by decide) 2).2.2.1⟩

/-- C7: `load_state` returns the default `(1, [])` whenever the persisted
file is absent, unparseable, or structurally malformed (top level not an
object, non-integer `cycle`, or non-list `done`), and for every input the
returned cycle is at least 1.  The function is total by construction, so it
never raises. -/
theorem C7_load_state_defaults (contents : Option (Option JVal)) :
    1 ≤ (load_state contents).1
    ∧ (malformed_state_input contents = true → load_state contents = (1, [])) := by
  rcases contents with _ | c
  · exact ⟨le_refl 1, fun _ => rfl⟩
  rcases c with _ | j
  · exact ⟨le_refl 1, fun _ => rfl⟩
  cases j with
  | jobj fields =>
    rcases hc : pyIntVal ((lookupField fields "cycle").getD (JVal.jint 1)) with _ | n <;>
      rcases hd : jListVal ((lookupField fields "done").getD (JVal.jarr [])) with _ | xs <;>
        constructor <;>
          simp [load_state, malformed_state_input, hc, hd]
  | jnull => exact ⟨le_refl 1, fun _ => rfl⟩
  | jbool b => exact ⟨le_refl 1, fun _ => rfl⟩
  | jint n => exact ⟨le_refl 1, fun _ => rfl⟩
  | jfloat q => exact ⟨le_refl 1, fun _ => rfl⟩
  | jstr s => exact ⟨le_refl 1, fun _ => rfl⟩
  | jarr xs => exact ⟨le_refl 1, fun _ => rfl⟩

/-- Witness for C7 at a state file whose `cycle` field is a string. -/
theorem C7_load_state_defaults_witness :
    load_state (some (some (JVal.jobj [("cycle", JVal.jstr "x")]))) = (1, [])
    ∧ 1 ≤ (load_state (some (some (JVal.jobj [("cycle", JVal.jstr "x")])))).1 :=
  ⟨(C7_load_state_defaults (some (some (JVal.jobj [("cycle", JVal.jstr "x")])))).2
     (by decide),
   (C7_load_state_defaults (some (some (JVal.jobj [("cycle", JVal.jstr "x")])))).1⟩

/-- C1: across runs, `done` only accumulates distinct names of currently
eligible folders — after the load phase `done` is a duplicate-free subset of
the eligible names, and after the end-of-run save the persisted list is a
duplicate-free subset of the eligible names; whenever `done` equals the
eligible set (detected at load, or reached at run end) the next state has
the cycle incremented by exactly 1 and `done` reset to empty, never a
partial reset. -/
theorem C1_round_robin (eligibleList : List String) (cycle0 : Nat)
    (doneList : List String) (processed : List String) :
    (load_phase eligibleList.toFinset cycle0 doneList).2 ⊆ eligibleList.toFinset
    ∧ (doneList.toFinset ∩ eligibleList.toFinset = eligibleList.toFinset →
        load_phase eligibleList.toFinset cycle0 doneList = (cycle0 + 1, ∅))
    ∧ ((∀ n ∈ processed, n ∈ picked_folders eligibleList
          (load_phase eligibleList.toFinset cycle0 doneList).2) →
        (end_phase eligibleList.toFinset
            (load_phase eligibleList.toFinset cycle0 doneList).1
            (load_phase eligibleList.toFinset cycle0 doneList).2 processed).2.toFinset
          ⊆ eligibleList.toFinset
        ∧ (end_phase eligibleList.toFinset
            (load_phase eligibleList.toFinset cycle0 doneList).1
            (load_phase eligibleList.toFinset cycle0 doneList).2 processed).2.Nodup
        ∧ ((load_phase eligibleList.toFinset cycle0 doneList).2 ∪ processed.toFinset
              = eligibleList.toFinset →
            end_phase eligibleList.toFinset
                (load_phase eligibleList.toFinset cycle0 doneList).1
                (load_phase eligibleList.toFinset cycle0 doneList).2 processed
              = ((load_phase eligibleList.toFinset cycle0 doneList).1 + 1, []))) := by
  refine ⟨?_, ?_, ?_⟩
  · unfold load_phase
    split
    · exact Finset.empty_subset _
    · exact Finset.inter_subset_right
  · intro h
    simp [load_phase, h]
  · intro hp
    have hPE : processed.toFinset ⊆ eligibleList.toFinset := by
      intro n hn
      have h1 := hp n (List.mem_toFinset.mp hn)
      unfold picked_folders at h1
      have h2 := List.take_subset _ _ h1
      unfold remaining_folders at h2
      exact List.mem_toFinset.mpr (List.mem_of_mem_filter h2)
    have hDE : (load_phase eligibleList.toFinset cycle0 doneList).2
        ⊆ eligibleList.toFinset := by
      unfold load_phase
      split
      · exact Finset.empty_subset _
      · exact Finset.inter_subset_right
    refine ⟨?_, ?_, ?_⟩
    · unfold end_phase
      split
      · simp
      · intro x hx
        rw [List.mem_toFinset, Finset.mem_sort] at hx
        exact Finset.union_subset hDE hPE hx
    · unfold end_phase
      split
      · exact List.nodup_nil
      · exact Finset.sort_nodup _ _
    · intro heq
      unfold end_phase
      rw [if_pos heq]

/-- Witness for C1: three eligible folders, a persisted `done` list with a
duplicate and a stale name, one folder processed this run. -/
theorem C1_round_robin_witness :
    (end_phase (["a", "b", "c"] : List String).toFinset
        (load_phase (["a", "b", "c"] : List String).toFinset 1 ["a", "a", "z"]).1
        (load_phase (["a", "b", "c"] : List String).toFinset 1 ["a", "a", "z"]).2
        ["b"]).2.Nodup
    ∧ (end_phase (["a", "b", "c"] : List String).toFinset
        (load_phase (["a", "b", "c"] : List String).toFinset 1 ["a", "a", "z"]).1
        (load_phase (["a", "b", "c"] : List String).toFinset 1 ["a", "a", "z"]).2
        ["b"]).2.toFinset ⊆ (["a", "b", "c"] : List String).toFinset := by
  have h := (C1_round_robin ["a", "b", "c"] 1 ["a", "a", "z"] ["b"]).2.2 (by decide)
  exact ⟨h.2.1, h.1⟩

/-- C2 counterexample: with two picked folders where the first folder's
first engine invocation exits non-zero, the run does not skip the failing
folder and continue — the uncaught `RuntimeError` aborts the whole loop
(`main_loop` returns the error instead of a processed list) and `main_tail`
never reaches the state save, so the second, healthy folder is not
processed, contradicting the claim that the run continues with the
remaining picked folders. -/
theorem C2_failure_aborts_run :
    main_loop [("a", ["c.mp4"], [1]), ("b", ["d.mp4"], [0, 0, 0, 0, 0, 0, 0])]
      = Except.error "Command failed"
    ∧ main_tail ({"a", "b"} : Finset String) 1 ∅
        [("a", ["c.mp4"], [1]), ("b", ["d.mp4"], [0, 0, 0, 0, 0, 0, 0])]
      = Except.error "Command failed" :=
  ⟨rfl, rfl⟩

/-- C2 amended: a render/concat failure (non-zero engine exit) raises an
uncaught exception that aborts the entire run — the failing folder is not
marked done because the state is never saved, but the remaining picked
folders are not processed either; only the empty-folder case is skipped
with the loop continuing, and a folder is prepended to the processed names
exactly when its processing fully succeeded. -/
theorem C2_amended_failure_semantics (name : String) (vids : List String)
    (exits : List Int) (rest : List (String × List String × List Int)) :
    (process_one_folder_result vids exits = Except.error "Command failed" →
        main_loop ((name, vids, exits) :: rest) = Except.error "Command failed")
    ∧ (vids = [] → main_loop ((name, vids, exits) :: rest) = main_loop rest)
    ∧ (process_one_folder_result vids exits = Except.ok true →
        main_loop ((name, vids, exits) :: rest)
          = (main_loop rest).map (fun t => name :: t)) := by
  refine ⟨?_, ?_, ?_⟩
  · intro h
    simp [main_loop, h]
  · intro h
    subst h
    have h0 : process_one_folder_result [] exits = Except.ok false := rfl
    simp only [main_loop, h0]
    cases h2 : main_loop rest <;> simp
  · intro h
    simp only [main_loop, h]
    cases h2 : main_loop rest <;> simp [Except.map]

/-- Witness for C2 amended: a failing folder aborts the loop; an empty
folder is skipped with the loop continuing; a fully successful folder is
recorded. -/
theorem C2_amended_failure_semantics_witness :
    main_loop [("x", ["v.mp4"], [2]), ("y", ["w.mp4"], [0])]
      = Except.error "Command failed"
    ∧ main_loop [("z", [], [0]), ("y", ["w.mp4"], [0])]
      = main_loop [("y", ["w.mp4"], [0])]
    ∧ main_loop [("y", ["w.mp4"], [0])]
      = (main_loop ([] : List (String × List String × List Int))).map
          (fun t => "y" :: t) :=
  ⟨(C2_amended_failure_semantics "x" ["v.mp4"] [2] [("y", ["w.mp4"], [0])]).1 rfl,
   (C2_amended_failure_semantics "z" [] [0] [("y", ["w.mp4"], [0])]).2.1 rfl,
   (C2_amended_failure_semantics "y" ["w.mp4"] [0] []).2.2 rfl⟩

/-- C4: for a source clip with no audio stream the constructed command does
map both a video pin and an audio pin (so the segment has both streams, and
the audio is synthesized `anullsrc` silence), but the synthesized silence is
capped at 0.1 seconds (`-t 0.1`) while `-shortest` ends the output at the
shorter mapped stream, so the silent track does not match the video track's
duration — the whole segment is truncated to about 0.1 s. -/
theorem C4_silent_track_truncated :
    List.IsInfix ["-f", "lavfi", "-t", "0.1", "-i",
      "anullsrc=channel_layout=stereo:sample_rate=48000"] c4_no_audio_cmd
    ∧ "-shortest" ∈ c4_no_audio_cmd
    ∧ List.IsInfix ["-map", "[v_final_out]", "-map", "[a_out]"] c4_no_audio_cmd := by
  refine ⟨?_, ?_, ?_⟩ <;> decide

/-- C5 counterexample: for a folder with one clip and no CTA, the
production rendition's concat list is just the body segment followed by the
outro — it does not begin with an intro segment, and the intro segment file
(rendered only for the social rendition) does not occur in it, contradicting
the claim that both renditions are intro + bodies + CTA + outro. -/
theorem C5_production_lacks_intro :
    Option.map FolderPlan.listProd (process_one_folder_plan ["a.mp4"] false false)
      = some ["norm_01_in_pd.mp4", "norm_02_outro.mp4"]
    ∧ Option.map FolderPlan.listTiktok (process_one_folder_plan ["a.mp4"] false false)
      = some ["norm_00_intro_tk.mp4", "norm_01_in_tk.mp4", "norm_02_outro.mp4"]
    ∧ intro_tk_name ∉ ["norm_01_in_pd.mp4", "norm_02_outro.mp4"] := by
  refine ⟨?_, ?_, ?_⟩ <;> decide

/-- C5 amended: for every successfully processed folder the social
rendition is assembled as intro, then the per-clip body segments in order,
then the optional call-to-action segment, then the fixed outro; the
production rendition is assembled the same way but without the intro
segment. -/
theorem C5_amended_segment_order (vids : List String)
    (ctaAudioExists lastFrameOk : Bool) (h : vids ≠ []) :
    Option.map FolderPlan.listTiktok (process_one_folder_plan vids ctaAudioExists lastFrameOk)
      = some (intro_tk_name ::
          (bodies_tk vids ++ cta_seg true ctaAudioExists lastFrameOk ++
            [outro_seg_name vids.length]))
    ∧ Option.map FolderPlan.listProd (process_one_folder_plan vids ctaAudioExists lastFrameOk)
      = some (bodies_pd vids ++ cta_seg true ctaAudioExists lastFrameOk ++
          [outro_seg_name vids.length]) := by
  have hne : vids.isEmpty = false := by
    simp [List.isEmpty_iff, h]
  have hb : (bodies_tk vids).isEmpty = false := by
    rcases vids with _ | ⟨v, tl⟩
    · exact absurd rfl h
    · simp [bodies_tk, List.isEmpty_iff]
  refine ⟨?_, ?_⟩ <;> simp [process_one_folder_plan, hne, hb]

/-- Witness for C5 amended at a one-clip folder with the CTA assets
available. -/
theorem C5_amended_segment_order_witness :
    Option.map FolderPlan.listProd (process_one_folder_plan ["a.mp4"] true true)
      = some (bodies_pd ["a.mp4"] ++ cta_seg true true true ++ [outro_seg_name 1]) :=
  (C5_amended_segment_order ["a.mp4"] true true (by decide)).2

/-- C6 counterexample: two runs over the same folder contents with the same
seed and configuration but different states of the (never-seeded)
process-global generator produce different shuffled orders, so the shuffle
order is not determined by (seed, configuration, folder contents). -/
theorem C6_shuffle_ignores_seed :
    shuffle_merge_shuffle BASE_SEED [0] ["a.mp4", "b.mp4"]
      ≠ shuffle_merge_shuffle BASE_SEED [1] ["a.mp4", "b.mp4"] := by
  decide

/-- C6 amended: the shuffled order in `process_one_folder` is a permutation
of the folder's clips (here: a reordering of the same length) determined by
the ambient global-generator draws and the clip list alone — the `seed`
parameter (`BASE_SEED`) has no effect on it; in gen_video.py, by contrast,
the draws come from a dedicated generator constructed from the `--seed`
argument, so equal seeds give equal orders there. -/
theorem C6_amended_shuffle_generator_determined (s1 s2 : Int) (g : List Nat)
    (vids : List String) :
    shuffle_merge_shuffle s1 g vids = shuffle_merge_shuffle s2 g vids
    ∧ (shuffle_merge_shuffle s1 g vids).length = vids.length
    ∧ (∀ drawsOfSeed seed, gen_video_shuffle drawsOfSeed seed vids
        = fisherYates (drawsOfSeed seed) vids) :=
  ⟨rfl, fisherYates_length g vids, fun _ _ => rfl⟩

/-- C8 counterexample: with the 4.2 s narration of the claim's scenario and
the speed preset of cycle 2 (speed 1.05), the duration cap is 4.2 s but the
rendered intro is 4.2/1.05 = 4 s, not 4.2 s — the intro segment's duration
does not equal the narration's duration. -/
theorem C8_intro_duration_speed_counterexample :
    get_intro_duration (21/5) = 21/5
    ∧ (get_zoom_speed_auto 2).2.1 = 21/20
    ∧ intro_rendered_duration 10 (21/5) (get_zoom_speed_auto 2).2.1 = 4
    ∧ (4 : ℚ) ≠ 21/5 := by
  have h2 : (get_zoom_speed_auto 2).2.1 = 21/20 := rfl
  refine ⟨by norm_num [get_intro_duration], h2, ?_, by norm_num⟩
  rw [h2]
  norm_num [intro_rendered_duration, get_intro_duration]

/-- C8 amended: the intro command reads the source video for exactly the
narration's probed duration when that duration is determinate (> 0.05 s)
and for a fixed 3 seconds otherwise (an indeterminate probe yields 0.0);
both streams are then warped by the cycle's speed multiplier, so for a
sufficiently long source clip the rendered intro duration is the
narration's duration divided by the speed (equal to the narration's
duration only when speed = 1). -/
theorem C8_amended_intro_duration (narr clip speed : ℚ) :
    (narr ≤ 1/20 → get_intro_duration narr = 3)
    ∧ (1/20 < narr → get_intro_duration narr = narr)
    ∧ ((make_intro_cmd "first.mp4" "intro.mp3" "out.mp4" narr TARGET_W TARGET_H
          FORCE_FPS SCALE_MODE none none none OVERLAY_TINT_STRENGTH 1 1
          (fun _ => false)).get? 4 = some "-t"
        ∧ (make_intro_cmd "first.mp4" "intro.mp3" "out.mp4" narr TARGET_W TARGET_H
          FORCE_FPS SCALE_MODE none none none OVERLAY_TINT_STRENGTH 1 1
          (fun _ => false)).get? 5 = some (pyFloatStr (get_intro_duration narr)))
    ∧ (0 < speed → 1/20 < narr → narr + 1/10 ≤ clip →
        intro_rendered_duration clip narr speed = narr / speed) := by
  refine ⟨?_, ?_, ⟨rfl, rfl⟩, ?_⟩
  · intro h
    unfold get_intro_duration
    rw [if_pos h]
  · intro h
    unfold get_intro_duration
    rw [if_neg (not_le.mpr h)]
  · intro hs hn hc
    have h4 : (0 : ℚ) ≤ clip - 1/10 := by linarith
    have h5 : narr ≤ clip - 1/10 := by linarith
    simp only [intro_rendered_duration, get_intro_duration]
    rw [if_neg (not_le.mpr hn), max_eq_left h4, min_eq_left h5, min_self]

/-- Witness for C8 amended: a 4.2 s narration, a 10 s clip, speed 1. -/
theorem C8_amended_intro_duration_witness :
    get_intro_duration ((21 : ℚ)/5) = 21/5
    ∧ intro_rendered_duration 10 (21/5) 1 = (21/5) / 1 :=
  ⟨(C8_amended_intro_duration (21/5) 10 1).2.1 (by norm_num),
   (C8_amended_intro_duration (21/5) 10 1).2.2.2 (by norm_num) (by norm_num) (by norm_num)⟩

/-- C9: `concat_segments` issues exactly one external-engine invocation
whose inputs are the segment files in their given order, whose filter is
the in-order n-way concat, and whose encoding arguments are a full
re-encode — the stream-copy codec argument never occurs, so no stream-copy
fast path is attempted. -/
theorem C9_concat_single_reencode (files : List String) (out : String) :
    concat_segments_cmd files out
      = ["ffmpeg", "-y"] ++ files.flatMap (fun p => ["-i", p]) ++
          ["-filter_complex", concat_filter files.length] ++
          concat_reencode_tail ++ [out]
    ∧ "copy" ∉ concat_reencode_tail
    ∧ "-c" ∉ concat_reencode_tail := by
  refine ⟨?_, by decide, by decide⟩
  unfold concat_segments_cmd
  rw [foldl_inputs]

/-- C10: in the social rendition the body transcode command of the first
shuffled clip never references the banner overlay, while for every
subsequent clip index the command contains the banner overlay chain (with
the banner image present). -/
theorem C10_banner_skips_first_clip (idx : Nat) (h : idx ≠ 1) :
    mentions_banner (body_cmd_tk 1) = false
    ∧ mentions_banner (body_cmd_tk idx) = true := by
  constructor
  · set_option maxRecDepth 100000 in with_unfolding_all decide
  · have hb : current_banner_tk idx (some "banner.png") = some "banner.png" := by
      simp [current_banner_tk, h]
    unfold body_cmd_tk
    rw [hb]
    set_option maxRecDepth 100000 in with_unfolding_all decide

/-- Witness for C10 at the second body segment. -/
theorem C10_banner_skips_first_clip_witness :
    mentions_banner (body_cmd_tk 1) = false
    ∧ mentions_banner (body_cmd_tk 2) = true :=
  ⟨(C10_banner_skips_first_clip 2 (by decide)).1,
   (C10_banner_skips_first_clip 2 (by decide)).2⟩

end KokoMerge
